import Mathlib

/-!
# Verification of the SceneManager resource / uniform management layer

Shallow embedding of `Source/SceneManager.cpp` (CS330Final repository).
The C++ class `SceneManager` keeps

  * a fixed 16-entry array `m_textureIDs` of `{tag, ID}` records together
    with a counter `m_loadedTextures` (the texture registry),
  * a `std::vector<OBJECT_MATERIAL> m_objectMaterials` (the material table),
  * a pointer `m_pShaderManager` through which named shader uniforms are
    written.

External collaborators are modelled explicitly: the stb_image decode result
of a file becomes an `Option Image` argument, the OpenGL texture-object
state becomes a `GPUState` (fresh-name counter plus list of live texture
names), and the `ShaderManager` uniform sink becomes a write log of
`(name, value)` pairs.
-/

/-- Real-valued 3-component vector (`glm::vec3`). -/
structure Vec3 where
  x : ℝ
  y : ℝ
  z : ℝ

/-- Real-valued 4-component color vector (`glm::vec4`, rgba access). -/
structure Vec4 where
  r : ℝ
  g : ℝ
  b : ℝ
  a : ℝ

/-- Result of a successful `stbi_load` decode: dimensions and channel
count.  The pixel payload is irrelevant to every property proved here. -/
structure Image where
  width : Int
  height : Int
  channels : Int
deriving DecidableEq

/-- One entry of the `m_textureIDs` array (struct `TEXTURE_INFO` of the
header: a tag string and a GPU texture id). -/
structure TEXTURE_INFO where
  tag : String
  ID : Int
deriving DecidableEq

/-- Struct `OBJECT_MATERIAL`: a tagged material property set. -/
structure OBJECT_MATERIAL where
  tag : String
  ambientColor : Vec3
  ambientStrength : ℝ
  diffuseColor : Vec3
  specularColor : Vec3
  shininess : ℝ

/-- Four-by-four real matrix, mathematical indexing `mIJ` = row I, column J.
`glm::mat4` stores columns, but `glm` matrix algebra is ordinary matrix
algebra, which is what is rendered here. -/
@[ext]
structure Mat4 where
  m00 : ℝ
  m01 : ℝ
  m02 : ℝ
  m03 : ℝ
  m10 : ℝ
  m11 : ℝ
  m12 : ℝ
  m13 : ℝ
  m20 : ℝ
  m21 : ℝ
  m22 : ℝ
  m23 : ℝ
  m30 : ℝ
  m31 : ℝ
  m32 : ℝ
  m33 : ℝ

/-- Matrix product (row-by-column), the meaning of `glm`'s `operator*`. -/
def Mat4.mul (A B : Mat4) : Mat4 where
  m00 := A.m00 * B.m00 + A.m01 * B.m10 + A.m02 * B.m20 + A.m03 * B.m30
  m01 := A.m00 * B.m01 + A.m01 * B.m11 + A.m02 * B.m21 + A.m03 * B.m31
  m02 := A.m00 * B.m02 + A.m01 * B.m12 + A.m02 * B.m22 + A.m03 * B.m32
  m03 := A.m00 * B.m03 + A.m01 * B.m13 + A.m02 * B.m23 + A.m03 * B.m33
  m10 := A.m10 * B.m00 + A.m11 * B.m10 + A.m12 * B.m20 + A.m13 * B.m30
  m11 := A.m10 * B.m01 + A.m11 * B.m11 + A.m12 * B.m21 + A.m13 * B.m31
  m12 := A.m10 * B.m02 + A.m11 * B.m12 + A.m12 * B.m22 + A.m13 * B.m32
  m13 := A.m10 * B.m03 + A.m11 * B.m13 + A.m12 * B.m23 + A.m13 * B.m33
  m20 := A.m20 * B.m00 + A.m21 * B.m10 + A.m22 * B.m20 + A.m23 * B.m30
  m21 := A.m20 * B.m01 + A.m21 * B.m11 + A.m22 * B.m21 + A.m23 * B.m31
  m22 := A.m20 * B.m02 + A.m21 * B.m12 + A.m22 * B.m22 + A.m23 * B.m32
  m23 := A.m20 * B.m03 + A.m21 * B.m13 + A.m22 * B.m23 + A.m23 * B.m33
  m30 := A.m30 * B.m00 + A.m31 * B.m10 + A.m32 * B.m20 + A.m33 * B.m30
  m31 := A.m30 * B.m01 + A.m31 * B.m11 + A.m32 * B.m21 + A.m33 * B.m31
  m32 := A.m30 * B.m02 + A.m31 * B.m12 + A.m32 * B.m22 + A.m33 * B.m32
  m33 := A.m30 * B.m03 + A.m31 * B.m13 + A.m32 * B.m23 + A.m33 * B.m33

instance : Mul Mat4 := ⟨Mat4.mul⟩

/-- The 4x4 identity matrix. -/
def Mat4.identity : Mat4 :=
  ⟨1, 0, 0, 0, 0, 1, 0, 0, 0, 0, 1, 0, 0, 0, 0, 1⟩

/-- Values a shader uniform can carry (the `ShaderManager::set*Value`
overloads used by `SceneManager`). -/
inductive UniformValue where
  | intVal : Int → UniformValue
  | floatVal : ℝ → UniformValue
  | vec2Val : ℝ → ℝ → UniformValue
  | vec3Val : Vec3 → UniformValue
  | vec4Val : Vec4 → UniformValue
  | mat4Val : Mat4 → UniformValue
  | sampler2DVal : Int → UniformValue

/-- Modelled from the spec: the `ShaderManager` class (UniformBridge,
spec section 4.5) is not part of the sources under verification; per the
spec it is a thin fire-and-forget sink of named uniform writes against the
active shader program, latest write winning.  It is modelled as a write
log: setting prepends, reading takes the most recent write of a name. -/
structure ShaderState where
  uniforms : List (String × UniformValue)

/-- Record one named uniform write (latest write first). -/
def ShaderState.setUniform (s : ShaderState) (name : String)
    (v : UniformValue) : ShaderState :=
  { uniforms := (name, v) :: s.uniforms }

/-- The value the shader program currently holds for uniform `name`:
the most recent write, if any. -/
def ShaderState.getUniform (s : ShaderState) (name : String) :
    Option UniformValue :=
  (s.uniforms.find? (fun p => p.1 == name)).map (fun p => p.2)

/-- Method `ShaderManager::setIntValue` (also receives C++ `bool` arguments via
the implicit bool-to-int conversion: `false` arrives as 0, `true` as 1). -/
def ShaderState.setIntValue (s : ShaderState) (name : String) (v : Int) :
    ShaderState :=
  s.setUniform name (UniformValue.intVal v)

/-- Method `ShaderManager::setVec4Value`. -/
def ShaderState.setVec4Value (s : ShaderState) (name : String) (v : Vec4) :
    ShaderState :=
  s.setUniform name (UniformValue.vec4Val v)

/-- Method `ShaderManager::setMat4Value`. -/
def ShaderState.setMat4Value (s : ShaderState) (name : String) (m : Mat4) :
    ShaderState :=
  s.setUniform name (UniformValue.mat4Val m)

/-- Method `ShaderManager::setSampler2DValue`. -/
def ShaderState.setSampler2DValue (s : ShaderState) (name : String)
    (v : Int) : ShaderState :=
  s.setUniform name (UniformValue.sampler2DVal v)

/-- Ambient OpenGL texture-object state: `glGenTextures` hands out fresh
positive names (modelled by a counter), `glDeleteTextures` removes a name
from the live set and silently ignores names that are not live. -/
structure GPUState where
  nextTextureId : Int
  liveTextures : List Int
deriving DecidableEq

attribute [ext] GPUState

/-- Call `glGenTextures(1, &id)`: returns a fresh name and marks it live. -/
def glGenTexture (g : GPUState) : Int × GPUState :=
  (g.nextTextureId,
   { nextTextureId := g.nextTextureId + 1,
     liveTextures := g.nextTextureId :: g.liveTextures })

/-- Call `glDeleteTextures(1, &id)`: removes `id` from the live set; deleting
a name that is not live is a silent no-op. -/
def glDeleteTexture (g : GPUState) (id : Int) : GPUState :=
  { g with liveTextures := g.liveTextures.filter (fun x => x != id) }

/-- The member state of a `SceneManager` object, together with the ambient
GPU texture-object state its methods mutate. -/
structure SceneState where
  textureIDs : List TEXTURE_INFO
  loadedTextures : Nat
  objectMaterials : List OBJECT_MATERIAL
  pShaderManager : Option ShaderState
  gpu : GPUState

/-- The array slots are initialised to this record by the constructor. -/
def defaultTextureInfo : TEXTURE_INFO := { tag := "/0", ID := -1 }

/-- Method `SceneManager::SceneManager`: all 16 slots of `m_textureIDs` are set
to `{tag = "/0", ID = -1}` and `m_loadedTextures` starts at 0. -/
def sceneManagerInit (pShaderManager : Option ShaderState) (g : GPUState) :
    SceneState where
  textureIDs := List.replicate 16 defaultTextureInfo
  loadedTextures := 0
  objectMaterials := []
  pShaderManager := pShaderManager
  gpu := g

-- uniform name constants of the anonymous namespace
def g_ModelName : String := "model"
def g_ColorValueName : String := "objectColor"
def g_TextureValueName : String := "objectTexture"
def g_UseTextureName : String := "bUseTexture"
def g_UseLightingName : String := "bUseLighting"

/-- Method `SceneManager::CreateGLTexture`.  The `stbi_load` outcome arrives as
`decoded` (`none` = decode failure).  On a decode the code first calls
`glGenTextures`/`glBindTexture` and sets sampling parameters, then either
uploads the pixels (3- and 4-channel images, the two `glTexImage2D`
branches, indistinguishable at this level) and registers the texture in
the next slot, or — any other channel count — frees the image and returns
false with the registry untouched (the generated GPU name is leaked, as
in the source).  A successful load writes `m_textureIDs[m_loadedTextures]`
and increments the counter; the source performs no capacity check, so at
`m_loadedTextures = 16` that write is past the end of the 16-entry array
(undefined behaviour in C++; `List.set` out of range keeps the list, which
is the closest defined rendering of "the array itself has no slot 16"). -/
def createGLTexture (st : SceneState) (decoded : Option Image)
    (tag : String) : Bool × SceneState :=
  match decoded with
  | some image =>
      let genResult := glGenTexture st.gpu
      let textureID := genResult.1
      let gpu1 := genResult.2
      if image.channels = 3 ∨ image.channels = 4 then
        (true,
         { st with
            gpu := gpu1,
            textureIDs := st.textureIDs.set st.loadedTextures
              { tag := tag, ID := textureID },
            loadedTextures := st.loadedTextures + 1 })
      else
        (false, { st with gpu := gpu1 })
  | none => (false, st)

/-- The first-match scan of `FindTextureID`: walk the records in order,
return the ID of the first record whose tag compares equal, `-1`
(the initial value of the local `textureID`) when none does. -/
def findTextureIDLoop (tag : String) : List TEXTURE_INFO → Int
  | [] => -1
  | r :: rest => if r.tag = tag then r.ID else findTextureIDLoop tag rest

/-- Method `SceneManager::FindTextureID`: linear scan over the first
`m_loadedTextures` array entries. -/
def findTextureID (st : SceneState) (tag : String) : Int :=
  findTextureIDLoop tag (st.textureIDs.take st.loadedTextures)

/-- The first-match scan of `FindTextureSlot`, carrying the running
index; returns the index of the first matching record, `-1` when none. -/
def findTextureSlotLoop (tag : String) (index : Nat) :
    List TEXTURE_INFO → Int
  | [] => -1
  | r :: rest =>
      if r.tag = tag then (index : Int)
      else findTextureSlotLoop tag (index + 1) rest

/-- Method `SceneManager::FindTextureSlot`: linear scan over the first
`m_loadedTextures` array entries, returning the slot index. -/
def findTextureSlot (st : SceneState) (tag : String) : Int :=
  findTextureSlotLoop tag 0 (st.textureIDs.take st.loadedTextures)

/-- The delete loop of `DestroyGLTextures`: for each registered record in
order, `glDeleteTextures(1, &m_textureIDs[i].ID)`. -/
def deleteTexturesLoop (g : GPUState) : List TEXTURE_INFO → GPUState
  | [] => g
  | r :: rest => deleteTexturesLoop (glDeleteTexture g r.ID) rest

/-- Method `SceneManager::DestroyGLTextures`: deletes the GPU texture object of
every registered record.  Note the source leaves `m_textureIDs` and
`m_loadedTextures` untouched. -/
def destroyGLTextures (st : SceneState) : SceneState :=
  { st with
      gpu := deleteTexturesLoop st.gpu (st.textureIDs.take st.loadedTextures) }

/-- The scan loop of `FindMaterial`: find the first material whose tag
matches and copy its five property fields (not the tag) into the
caller-supplied output reference; past the end the output is returned as
it came in. -/
def findMaterialLoop (tag : String) (material : OBJECT_MATERIAL) :
    List OBJECT_MATERIAL → OBJECT_MATERIAL
  | [] => material
  | m :: rest =>
      if m.tag = tag then
        { material with
            ambientColor := m.ambientColor,
            ambientStrength := m.ambientStrength,
            diffuseColor := m.diffuseColor,
            specularColor := m.specularColor,
            shininess := m.shininess }
      else findMaterialLoop tag material rest

/-- Method `SceneManager::FindMaterial`: returns `false` immediately on an empty
table; otherwise scans for the first tag match, copies the match (if any)
into the output reference — and returns `true` unconditionally (the local
`bFound` is never consulted for the return value). -/
def findMaterial (st : SceneState) (tag : String)
    (material : OBJECT_MATERIAL) : Bool × OBJECT_MATERIAL :=
  if st.objectMaterials.length = 0 then
    (false, material)
  else
    (true, findMaterialLoop tag material st.objectMaterials)

/-- Function `glm::radians`: degrees to radians. -/
noncomputable def radians (degrees : ℝ) : ℝ :=
  degrees * (Real.pi / 180)

/-- Function `glm::scale(v)`: diagonal scaling matrix. -/
def glmScale (v : Vec3) : Mat4 :=
  ⟨v.x, 0, 0, 0, 0, v.y, 0, 0, 0, 0, v.z, 0, 0, 0, 0, 1⟩

/-- Function `glm::translate(v)`: identity with the translation in the last
column. -/
def glmTranslate (v : Vec3) : Mat4 :=
  ⟨1, 0, 0, v.x, 0, 1, 0, v.y, 0, 0, 1, v.z, 0, 0, 0, 1⟩

/-- Function `glm::rotate(angle, v)`: axis-angle rotation.  glm normalizes the
axis, takes `c = cos angle`, `s = sin angle`, `temp = (1-c)·axis`, and
fills the 3x3 block with the Rodrigues formula (entries transcribed from
`glm/ext/matrix_transform.inl`, converted from its column-major storage
to the mathematical row/column indexing of `Mat4`). -/
noncomputable def glmRotate (angle : ℝ) (v : Vec3) : Mat4 :=
  let c := Real.cos angle
  let s := Real.sin angle
  let len := Real.sqrt (v.x * v.x + v.y * v.y + v.z * v.z)
  let ax := v.x / len
  let ay := v.y / len
  let az := v.z / len
  let t0 := (1 - c) * ax
  let t1 := (1 - c) * ay
  let t2 := (1 - c) * az
  ⟨c + t0 * ax, t1 * ax - s * az, t2 * ax + s * ay, 0,
   t0 * ay + s * az, c + t1 * ay, t2 * ay - s * ax, 0,
   t0 * az - s * ay, t1 * az + s * ax, c + t2 * az, 0,
   0, 0, 0, 1⟩

/-- Method `SceneManager::SetTransformations`: builds scale, the three axis
rotations (angles converted degrees to radians), and translation, composes
`translation * rotationZ * rotationY * rotationX * scale`, and forwards
the result as the `model` uniform when a shader manager is attached. -/
noncomputable def setTransformations (st : SceneState) (scaleXYZ : Vec3)
    (XrotationDegrees YrotationDegrees ZrotationDegrees : ℝ)
    (positionXYZ : Vec3) : SceneState :=
  let scale := glmScale scaleXYZ
  let rotationX := glmRotate (radians XrotationDegrees) ⟨1, 0, 0⟩
  let rotationY := glmRotate (radians YrotationDegrees) ⟨0, 1, 0⟩
  let rotationZ := glmRotate (radians ZrotationDegrees) ⟨0, 0, 1⟩
  let translation := glmTranslate positionXYZ
  let modelView := translation * rotationZ * rotationY * rotationX * scale
  match st.pShaderManager with
  | some sm =>
      { st with pShaderManager := some (sm.setMat4Value g_ModelName modelView) }
  | none => st

/-- Method `SceneManager::SetShaderColor`: builds the rgba color and, when a
shader manager is attached, writes `bUseTexture := false` (as int 0) and
the color uniform. -/
def setShaderColor (st : SceneState) (redColorValue greenColorValue
    blueColorValue alphaValue : ℝ) : SceneState :=
  let currentColor : Vec4 :=
    ⟨redColorValue, greenColorValue, blueColorValue, alphaValue⟩
  match st.pShaderManager with
  | some sm =>
      let sm := sm.setIntValue g_UseTextureName 0
      let sm := sm.setVec4Value g_ColorValueName currentColor
      { st with pShaderManager := some sm }
  | none => st

/-- Method `SceneManager::SetShaderTexture`: when a shader manager is attached,
writes `bUseTexture := true` (as int 1), resolves the tag to a slot via
`FindTextureSlot` and writes the sampler uniform. -/
def setShaderTexture (st : SceneState) (textureTag : String) : SceneState :=
  match st.pShaderManager with
  | some sm =>
      let sm := sm.setIntValue g_UseTextureName 1
      let textureID := findTextureSlot st textureTag
      let sm := sm.setSampler2DValue g_TextureValueName textureID
      { st with pShaderManager := some sm }
  | none => st

/-- Method `SceneManager::LoadSceneMaterials`: pushes the five scene materials,
with the literal values of the source, onto `m_objectMaterials`. -/
def loadSceneMaterials (st : SceneState) : SceneState :=
  let floorMaterial : OBJECT_MATERIAL :=
    { tag := "floorMaterial", ambientColor := ⟨0.2, 0.2, 0.2⟩,
      ambientStrength := 0.5, diffuseColor := ⟨0.8, 0.8, 0.8⟩,
      specularColor := ⟨1, 1, 1⟩, shininess := 32 }
  let deskMaterial : OBJECT_MATERIAL :=
    { tag := "deskMaterial", ambientColor := ⟨0.3, 0.3, 0.3⟩,
      ambientStrength := 0.5, diffuseColor := ⟨0.6, 0.3, 0.3⟩,
      specularColor := ⟨0.5, 0.5, 0.5⟩, shininess := 16 }
  let keyboardMaterial : OBJECT_MATERIAL :=
    { tag := "keyboardMaterial", ambientColor := ⟨0.2, 0.2, 0.2⟩,
      ambientStrength := 0.5, diffuseColor := ⟨0.7, 0.7, 0.7⟩,
      specularColor := ⟨1, 1, 1⟩, shininess := 32 }
  let monitorMaterial : OBJECT_MATERIAL :=
    { tag := "monitorMaterial", ambientColor := ⟨0.2, 0.2, 0.2⟩,
      ambientStrength := 0.5, diffuseColor := ⟨0.9, 0.9, 0.9⟩,
      specularColor := ⟨1, 1, 1⟩, shininess := 128 }
  let screenMaterial : OBJECT_MATERIAL :=
    { tag := "screenMaterial", ambientColor := ⟨0.1, 0.1, 0.1⟩,
      ambientStrength := 0.5, diffuseColor := ⟨0.5, 0.5, 0.5⟩,
      specularColor := ⟨1, 1, 1⟩, shininess := 256 }
  { st with objectMaterials :=
      st.objectMaterials ++
        [floorMaterial, deskMaterial, keyboardMaterial, monitorMaterial,
         screenMaterial] }

/-!
## Spec-side definitions

The specification describes the composed transform as
`Translate · RotateZ · RotateY · RotateX · Scale` with each rotation
"built from the corresponding angle converted from degrees to radians
about the X, Y, or Z axis respectively".  The canonical single-axis
rotation matrices below follow those words; the refinement theorems
compare them with the `glm::rotate` axis-angle matrices the source uses.
-/

/-- Canonical rotation about the X axis, as the spec words it. -/
noncomputable def specRotateX (angle : ℝ) : Mat4 :=
  ⟨1, 0, 0, 0,
   0, Real.cos angle, -Real.sin angle, 0,
   0, Real.sin angle, Real.cos angle, 0,
   0, 0, 0, 1⟩

/-- Canonical rotation about the Y axis, as the spec words it. -/
noncomputable def specRotateY (angle : ℝ) : Mat4 :=
  ⟨Real.cos angle, 0, Real.sin angle, 0,
   0, 1, 0, 0,
   -Real.sin angle, 0, Real.cos angle, 0,
   0, 0, 0, 1⟩

/-- Canonical rotation about the Z axis, as the spec words it. -/
noncomputable def specRotateZ (angle : ℝ) : Mat4 :=
  ⟨Real.cos angle, -Real.sin angle, 0, 0,
   Real.sin angle, Real.cos angle, 0, 0,
   0, 0, 1, 0,
   0, 0, 0, 1⟩

/-!
## Concrete states used by witnesses and counterexamples
-/

/-- A fresh GPU state: no live textures, first name handed out is 1. -/
def gpu0 : GPUState := ⟨1, []⟩

/-- A decoded 3-channel (RGB) test image. -/
def imgRGB : Image := ⟨8, 8, 3⟩

/-- A decoded 4-channel (RGBA) test image. -/
def imgRGBA : Image := ⟨8, 8, 4⟩

/-- A caller-side output material (the C++ caller passes an uninitialized
local; any concrete record stands for it). -/
def probeMaterial : OBJECT_MATERIAL :=
  { tag := "", ambientColor := ⟨0, 0, 0⟩, ambientStrength := 0,
    diffuseColor := ⟨0, 0, 0⟩, specularColor := ⟨0, 0, 0⟩, shininess := 0 }

/-- Scene state right after `LoadSceneMaterials` on a fresh manager. -/
def stMaterials : SceneState := loadSceneMaterials (sceneManagerInit none gpu0)

/-- Registry after two successful loads: slot 0 tag `floor` (id 1),
slot 1 tag `desk` (id 2). -/
def stTwoTex : SceneState :=
  (createGLTexture
    ((createGLTexture (sceneManagerInit none gpu0) (some imgRGB) "floor").2)
    (some imgRGBA) "desk").2

/-- Observer: the `bUseTexture` flag the shader program currently holds
(the value the next draw call will see), if a shader manager is attached
and the flag was ever written. -/
def useTextureFlag (st : SceneState) : Option UniformValue :=
  match st.pShaderManager with
  | some sm => sm.getUniform g_UseTextureName
  | none => none

/-- Observer: the `objectColor` uniform the shader program currently
holds. -/
def colorUniform (st : SceneState) : Option UniformValue :=
  match st.pShaderManager with
  | some sm => sm.getUniform g_ColorValueName
  | none => none

/-- Registry after one successful load: slot 0 tag `floor` (id 1). -/
def stOneTex : SceneState :=
  (createGLTexture (sceneManagerInit none gpu0) (some imgRGB) "floor").2

/-- Fold a list of tags through successful RGB loads. -/
def loadTags (st : SceneState) (tags : List String) : SceneState :=
  tags.foldl (fun s t => (createGLTexture s (some imgRGB) t).2) st

/-- A registry filled to its 16-slot capacity. -/
def stFullRegistry : SceneState :=
  loadTags (sceneManagerInit none gpu0)
    ["t00", "t01", "t02", "t03", "t04", "t05", "t06", "t07",
     "t08", "t09", "t10", "t11", "t12", "t13", "t14", "t15"]

/-!
## Helper lemmas about the lookup loops
-/

theorem Mat4.mul_def (A B : Mat4) : A * B = Mat4.mul A B := rfl

theorem findMaterialLoop_of_no_match {tag : String}
    {material : OBJECT_MATERIAL} {ms : List OBJECT_MATERIAL}
    (h : ∀ m ∈ ms, m.tag ≠ tag) :
    findMaterialLoop tag material ms = material := by
  induction ms with
  | nil => rfl
  | cons m rest ih =>
      rw [findMaterialLoop, if_neg (h m (List.mem_cons_self m rest))]
      exact ih (fun x hx => h x (List.mem_cons_of_mem m hx))

theorem findTextureIDLoop_of_no_match {tag : String}
    {l : List TEXTURE_INFO} (h : ∀ r ∈ l, r.tag ≠ tag) :
    findTextureIDLoop tag l = -1 := by
  induction l with
  | nil => rfl
  | cons r rest ih =>
      rw [findTextureIDLoop, if_neg (h r (List.mem_cons_self r rest))]
      exact ih (fun x hx => h x (List.mem_cons_of_mem r hx))

theorem findTextureSlotLoop_of_no_match {tag : String} {l : List TEXTURE_INFO}
    (index : Nat) (h : ∀ r ∈ l, r.tag ≠ tag) :
    findTextureSlotLoop tag index l = -1 := by
  induction l generalizing index with
  | nil => rfl
  | cons r rest ih =>
      rw [findTextureSlotLoop, if_neg (h r (List.mem_cons_self r rest))]
      exact ih (index + 1) (fun x hx => h x (List.mem_cons_of_mem r hx))

theorem findTextureIDLoop_first_match {tag : String} {l : List TEXTURE_INFO}
    {j : Nat} (hj : j < l.length)
    (hmatch : (l.getD j defaultTextureInfo).tag = tag)
    (hbefore : ∀ i, i < j → (l.getD i defaultTextureInfo).tag ≠ tag) :
    findTextureIDLoop tag l = (l.getD j defaultTextureInfo).ID := by
  induction l generalizing j with
  | nil => exact absurd hj (Nat.not_lt_zero j)
  | cons r rest ih =>
      match j with
      | 0 =>
          simp only [List.getD_cons_zero] at hmatch ⊢
          rw [findTextureIDLoop, if_pos hmatch]
      | j + 1 =>
          have hr : r.tag ≠ tag := by
            have := hbefore 0 (Nat.succ_pos j)
            simpa using this
          simp only [List.getD_cons_succ] at hmatch ⊢
          rw [findTextureIDLoop, if_neg hr]
          exact ih (Nat.lt_of_succ_lt_succ hj) hmatch
            (fun i hi => by
              have := hbefore (i + 1) (Nat.succ_lt_succ hi)
              simpa using this)

theorem findTextureSlotLoop_first_match {tag : String}
    {l : List TEXTURE_INFO} {j : Nat} (index : Nat) (hj : j < l.length)
    (hmatch : (l.getD j defaultTextureInfo).tag = tag)
    (hbefore : ∀ i, i < j → (l.getD i defaultTextureInfo).tag ≠ tag) :
    findTextureSlotLoop tag index l = ((index + j : Nat) : Int) := by
  induction l generalizing j index with
  | nil => exact absurd hj (Nat.not_lt_zero j)
  | cons r rest ih =>
      match j with
      | 0 =>
          simp only [List.getD_cons_zero] at hmatch
          rw [findTextureSlotLoop, if_pos hmatch]
          simp
      | j + 1 =>
          have hr : r.tag ≠ tag := by
            have := hbefore 0 (Nat.succ_pos j)
            simpa using this
          simp only [List.getD_cons_succ] at hmatch
          rw [findTextureSlotLoop, if_neg hr]
          have := ih (index + 1) (Nat.lt_of_succ_lt_succ hj) hmatch
            (fun i hi => by
              have := hbefore (i + 1) (Nat.succ_lt_succ hi)
              simpa using this)
          rw [this]
          congr 1
          omega

theorem getD_take {α : Type} {l : List α} {n i : Nat} (h : i < n) (d : α) :
    (l.take n).getD i d = l.getD i d := by
  induction l generalizing n i with
  | nil => simp
  | cons a rest ih =>
      match n, i with
      | m + 1, 0 => simp
      | m + 1, k + 1 =>
          simp only [List.take_succ_cons, List.getD_cons_succ]
          exact ih (Nat.lt_of_succ_lt_succ h) 

theorem mem_take_getD {α : Type} {l : List α} {n : Nat} {r : α} (d : α)
    (h : r ∈ l.take n) :
    ∃ i, i < n ∧ i < l.length ∧ l.getD i d = r := by
  induction l generalizing n with
  | nil => simp at h
  | cons a rest ih =>
      match n with
      | 0 => simp at h
      | m + 1 =>
          rw [List.take_succ_cons, List.mem_cons] at h
          rcases h with h | h
          · exact ⟨0, Nat.succ_pos m, by simp, by simp [h.symm]⟩
          · obtain ⟨i, hi₁, hi₂, hi₃⟩ := ih h
            exact ⟨i + 1, Nat.succ_lt_succ hi₁, by simpa using hi₂,
              by simpa using hi₃⟩

/-!
## Claims about the material table
-/

/-- Claim C1 (code evaluated at the failing input).  The claim states that
`FindMaterial` on a non-empty table with an unmatched tag returns
`found = false`.  The code does not: after `LoadSceneMaterials` (five
materials, none tagged `"nonexistent"`), `FindMaterial("nonexistent", m)`
returns `true` — the scan's `bFound` flag is never consulted for the
return value, so a non-empty table always reports success. -/
theorem findMaterial_unmatched_returns_true :
    findMaterial stMaterials "nonexistent" probeMaterial =
      (true, probeMaterial) := by
  rfl

/-- Claim C10: when the table is non-empty and no stored material's tag
matches, `FindMaterial` leaves the caller-supplied output material
completely unmodified, whatever boolean it returns. -/
theorem findMaterial_unmatched_output_untouched (st : SceneState)
    (tag : String) (material : OBJECT_MATERIAL)
    (hne : st.objectMaterials.length ≠ 0)
    (hnm : ∀ m ∈ st.objectMaterials, m.tag ≠ tag) :
    (findMaterial st tag material).2 = material := by
  rw [findMaterial, if_neg hne]
  exact findMaterialLoop_of_no_match hnm

/-- Witness for C10 at the loaded material table and an unseen tag. -/
theorem findMaterial_unmatched_output_untouched_witness :
    (findMaterial stMaterials "nonexistent" probeMaterial).2 =
      probeMaterial :=
  findMaterial_unmatched_output_untouched stMaterials "nonexistent"
    probeMaterial (by decide)
    (by decide)

/-!
## Claims about texture loading and lookup
-/

/-- Claim C5: when the image decodes but its channel count is neither 3
nor 4, `CreateGLTexture` returns false and the registry is unchanged —
no record is added and the loaded-texture count does not increment. -/
theorem createGLTexture_unsupported_format (st : SceneState) (image : Image)
    (tag : String) (h3 : image.channels ≠ 3) (h4 : image.channels ≠ 4) :
    (createGLTexture st (some image) tag).1 = false ∧
    (createGLTexture st (some image) tag).2.textureIDs = st.textureIDs ∧
    (createGLTexture st (some image) tag).2.loadedTextures =
      st.loadedTextures := by
  simp [createGLTexture, h3, h4]

/-- Witness for C5: a 2-channel (gray+alpha) image is rejected and the
fresh registry stays empty. -/
theorem createGLTexture_unsupported_format_witness :
    (createGLTexture (sceneManagerInit none gpu0) (some ⟨8, 8, 2⟩)
        "gray").1 = false ∧
    (createGLTexture (sceneManagerInit none gpu0) (some ⟨8, 8, 2⟩)
        "gray").2.textureIDs = (sceneManagerInit none gpu0).textureIDs ∧
    (createGLTexture (sceneManagerInit none gpu0) (some ⟨8, 8, 2⟩)
        "gray").2.loadedTextures =
      (sceneManagerInit none gpu0).loadedTextures :=
  createGLTexture_unsupported_format (sceneManagerInit none gpu0) ⟨8, 8, 2⟩
    "gray" (by decide) (by decide)

/-- Claim C7: `FindTextureID` and `FindTextureSlot` are total functions
that return the sentinel −1 when no registered record's tag matches, and
on a match return the ID (resp. slot index) of the first matching record
in insertion order. -/
theorem findTexture_lookup_contract (st : SceneState) (tag : String) :
    ((∀ i, i < st.loadedTextures → i < st.textureIDs.length →
        (st.textureIDs.getD i defaultTextureInfo).tag ≠ tag) →
      findTextureID st tag = -1 ∧ findTextureSlot st tag = -1) ∧
    (∀ j, j < st.loadedTextures → j < st.textureIDs.length →
        (st.textureIDs.getD j defaultTextureInfo).tag = tag →
        (∀ i, i < j → (st.textureIDs.getD i defaultTextureInfo).tag ≠ tag) →
      findTextureID st tag = (st.textureIDs.getD j defaultTextureInfo).ID ∧
      findTextureSlot st tag = (j : Int)) := by
  constructor
  · intro h
    have hall : ∀ r ∈ st.textureIDs.take st.loadedTextures, r.tag ≠ tag := by
      intro r hr
      obtain ⟨i, hi₁, hi₂, hi₃⟩ := mem_take_getD defaultTextureInfo hr
      rw [← hi₃]
      exact h i hi₁ hi₂
    exact ⟨findTextureIDLoop_of_no_match hall,
      findTextureSlotLoop_of_no_match 0 hall⟩
  · intro j hj₁ hj₂ hmatch hbefore
    have hjlen : j < (st.textureIDs.take st.loadedTextures).length := by
      rw [List.length_take]
      exact Nat.lt_min.mpr ⟨hj₁, hj₂⟩
    have hmatch' :
        ((st.textureIDs.take st.loadedTextures).getD j
          defaultTextureInfo).tag = tag := by
      rw [getD_take hj₁]
      exact hmatch
    have hbefore' : ∀ i, i < j →
        ((st.textureIDs.take st.loadedTextures).getD i
          defaultTextureInfo).tag ≠ tag := by
      intro i hi
      rw [getD_take (Nat.lt_trans hi hj₁)]
      exact hbefore i hi
    constructor
    · rw [findTextureID,
        findTextureIDLoop_first_match hjlen hmatch' hbefore',
        getD_take hj₁]
    · rw [findTextureSlot,
        findTextureSlotLoop_first_match 0 hjlen hmatch' hbefore']
      simp

/-- Witness for C7 on the two-texture registry: an unknown tag yields the
sentinel for both lookups; the tag `desk` resolves to id 2 and slot 1. -/
theorem findTexture_lookup_contract_witness :
    (findTextureID stTwoTex "nonexistent" = -1 ∧
     findTextureSlot stTwoTex "nonexistent" = -1) ∧
    (findTextureID stTwoTex "desk" =
        (stTwoTex.textureIDs.getD 1 defaultTextureInfo).ID ∧
     findTextureSlot stTwoTex "desk" = (1 : Int)) :=
  ⟨(findTexture_lookup_contract stTwoTex "nonexistent").1
      (by decide),
   (findTexture_lookup_contract stTwoTex "desk").2 1 (by decide) (by decide)
      (by decide) (by decide)⟩

/-!
## Claims about the per-draw shader state
-/

/-- Claim C8: `SetShaderColor` always writes `bUseTexture = false` (int 0)
together with the color, `SetShaderTexture` always writes
`bUseTexture = true` (int 1), and in particular `SetShaderTexture`
followed by `SetShaderColor` leaves the flag false for the subsequent
draw — the two modes are mutually exclusive per draw. -/
theorem shader_color_texture_mode_exclusive (st : SceneState)
    (sm : ShaderState) (textureTag : String) (r g b a : ℝ)
    (hs : st.pShaderManager = some sm) :
    useTextureFlag (setShaderColor st r g b a) =
      some (UniformValue.intVal 0) ∧
    colorUniform (setShaderColor st r g b a) =
      some (UniformValue.vec4Val ⟨r, g, b, a⟩) ∧
    useTextureFlag (setShaderTexture st textureTag) =
      some (UniformValue.intVal 1) ∧
    useTextureFlag
        (setShaderColor (setShaderTexture st textureTag) r g b a) =
      some (UniformValue.intVal 0) := by
  have hcol : (g_ColorValueName == g_UseTextureName) = false := by decide
  have hcol' : (g_ColorValueName == g_ColorValueName) = true := by decide
  have huse : (g_UseTextureName == g_UseTextureName) = true := by decide
  have htex : (g_TextureValueName == g_UseTextureName) = false := by decide
  refine ⟨?_, ?_, ?_, ?_⟩ <;>
    simp [useTextureFlag, colorUniform, setShaderColor, setShaderTexture,
      hs, ShaderState.setIntValue, ShaderState.setVec4Value,
      ShaderState.setSampler2DValue, ShaderState.setUniform,
      ShaderState.getUniform, List.find?, hcol, hcol', huse, htex]

/-- Witness for C8 on a fresh manager with an attached (empty) shader
program, texture tag `screen`, color red. -/
theorem shader_color_texture_mode_exclusive_witness :
    useTextureFlag
        (setShaderColor (sceneManagerInit (some ⟨[]⟩) gpu0) 1 0 0 1) =
      some (UniformValue.intVal 0) ∧
    colorUniform
        (setShaderColor (sceneManagerInit (some ⟨[]⟩) gpu0) 1 0 0 1) =
      some (UniformValue.vec4Val ⟨1, 0, 0, 1⟩) ∧
    useTextureFlag
        (setShaderTexture (sceneManagerInit (some ⟨[]⟩) gpu0) "screen") =
      some (UniformValue.intVal 1) ∧
    useTextureFlag
        (setShaderColor
          (setShaderTexture (sceneManagerInit (some ⟨[]⟩) gpu0) "screen")
          1 0 0 1) =
      some (UniformValue.intVal 0) :=
  shader_color_texture_mode_exclusive (sceneManagerInit (some ⟨[]⟩) gpu0)
    ⟨[]⟩ "screen" 1 0 0 1 rfl

/-!
## Claims about registry capacity and teardown
-/

theorem getD_set_self {α : Type} {l : List α} {n : Nat} (a d : α)
    (h : n < l.length) : (l.set n a).getD n d = a := by
  induction l generalizing n with
  | nil => simp at h
  | cons x rest ih =>
      match n with
      | 0 => simp
      | m + 1 =>
          simp only [List.set_cons_succ, List.getD_cons_succ]
          exact ih (Nat.lt_of_succ_lt_succ h)

theorem getD_set_ne {α : Type} {l : List α} {n m : Nat} (a d : α)
    (h : n ≠ m) : (l.set n a).getD m d = l.getD m d := by
  induction l generalizing n m with
  | nil => simp
  | cons x rest ih =>
      match n, m with
      | 0, 0 => exact absurd rfl h
      | 0, k + 1 => simp
      | j + 1, 0 => simp
      | j + 1, k + 1 =>
          simp only [List.set_cons_succ, List.getD_cons_succ]
          exact ih (fun hh => h (congrArg Nat.succ hh))

theorem deleteTexturesLoop_live (g : GPUState) (l : List TEXTURE_INFO) :
    (deleteTexturesLoop g l).liveTextures =
      g.liveTextures.filter (fun x => l.all (fun r => x != r.ID)) := by
  induction l generalizing g with
  | nil => simp [deleteTexturesLoop]
  | cons r rest ih =>
      rw [deleteTexturesLoop, ih]
      simp only [glDeleteTexture, List.filter_filter, List.all_cons]
      exact List.filter_congr (fun x _ => by rw [Bool.and_comm])

theorem deleteTexturesLoop_nextId (g : GPUState) (l : List TEXTURE_INFO) :
    (deleteTexturesLoop g l).nextTextureId = g.nextTextureId := by
  induction l generalizing g with
  | nil => rfl
  | cons r rest ih => rw [deleteTexturesLoop, ih]; rfl

theorem deleteTexturesLoop_idem (g : GPUState) (l : List TEXTURE_INFO) :
    deleteTexturesLoop (deleteTexturesLoop g l) l = deleteTexturesLoop g l := by
  apply GPUState.ext
  · rw [deleteTexturesLoop_nextId, deleteTexturesLoop_nextId]
  · rw [deleteTexturesLoop_live, deleteTexturesLoop_live,
      List.filter_filter]
    exact List.filter_congr (fun x _ => by rw [Bool.and_self])

theorem getD_mem_take {α : Type} {l : List α} {n i : Nat} (h1 : i < n)
    (h2 : i < l.length) (d : α) : l.getD i d ∈ l.take n := by
  induction l generalizing n i with
  | nil => simp at h2
  | cons a rest ih =>
      match n, i with
      | m + 1, 0 => simp
      | m + 1, k + 1 =>
          simp only [List.take_succ_cons, List.getD_cons_succ]
          exact List.mem_cons_of_mem a
            (ih (Nat.lt_of_succ_lt_succ h1) (Nat.lt_of_succ_lt_succ h2))

/-- Claim C2 (code evaluated at the failing input).  The claim requires a
17th load on a full registry to fail (return false, add nothing).  The
source has no capacity check: on a full registry a successful 3-channel
load still returns `true` and increments `m_loadedTextures` to 17; the
C++ write `m_textureIDs[16]` is past the end of the 16-entry array
(undefined behaviour — rendered here as a `List.set` out of range, which
keeps the array, so the new tag is not resolvable afterwards). -/
theorem createGLTexture_seventeenth_load :
    stFullRegistry.loadedTextures = 16 ∧
    (createGLTexture stFullRegistry (some imgRGB) "extra").1 = true ∧
    (createGLTexture stFullRegistry (some imgRGB) "extra").2.loadedTextures
      = 17 ∧
    findTextureSlot (createGLTexture stFullRegistry (some imgRGB) "extra").2
      "extra" = -1 := by
  decide

/-- Claim C3, counterexample part: after one successful load, one
`DestroyGLTextures` call does not leave the registry empty — the record
count is still 1, because the source never resets `m_loadedTextures` or
the array. -/
theorem destroyGLTextures_not_empty_counterexample :
    stOneTex.loadedTextures = 1 ∧
    (destroyGLTextures stOneTex).loadedTextures ≠ 0 := by
  decide

/-- Claim C3, amended: `DestroyGLTextures` deletes every registered GPU
texture object but leaves the registry records themselves (array, count,
materials, shader pointer) unchanged — the registry does *not* become
empty; and a second call is a no-op: the whole state is unchanged, so
calling it multiple times is safe. -/
theorem destroyGLTextures_deletes_gpu_and_is_idempotent (st : SceneState)
    (hlen : st.loadedTextures ≤ st.textureIDs.length) :
    ((destroyGLTextures st).textureIDs = st.textureIDs ∧
     (destroyGLTextures st).loadedTextures = st.loadedTextures ∧
     (destroyGLTextures st).objectMaterials = st.objectMaterials ∧
     (destroyGLTextures st).pShaderManager = st.pShaderManager) ∧
    (∀ i, i < st.loadedTextures →
        (st.textureIDs.getD i defaultTextureInfo).ID ∉
          (destroyGLTextures st).gpu.liveTextures) ∧
    destroyGLTextures (destroyGLTextures st) = destroyGLTextures st := by
  refine ⟨⟨rfl, rfl, rfl, rfl⟩, ?_, ?_⟩
  · intro i hi hmem
    have hmem' : (st.textureIDs.getD i defaultTextureInfo).ID ∈
        (deleteTexturesLoop st.gpu
          (st.textureIDs.take st.loadedTextures)).liveTextures := hmem
    rw [deleteTexturesLoop_live] at hmem'
    have hp := List.of_mem_filter hmem'
    rw [List.all_eq_true] at hp
    have hr := hp _ (getD_mem_take hi (Nat.lt_of_lt_of_le hi hlen)
      defaultTextureInfo)
    simp at hr
  · exact congrArg (fun gg => { st with gpu := gg })
      (deleteTexturesLoop_idem st.gpu (st.textureIDs.take st.loadedTextures))

/-- Witness for the amended C3 at the one-texture registry. -/
theorem destroyGLTextures_deletes_gpu_and_is_idempotent_witness :
    (destroyGLTextures stOneTex).loadedTextures = stOneTex.loadedTextures ∧
    (stOneTex.textureIDs.getD 0 defaultTextureInfo).ID ∉
      (destroyGLTextures stOneTex).gpu.liveTextures ∧
    destroyGLTextures (destroyGLTextures stOneTex) =
      destroyGLTextures stOneTex :=
  ⟨(destroyGLTextures_deletes_gpu_and_is_idempotent stOneTex
      (by decide)).1.2.1,
   (destroyGLTextures_deletes_gpu_and_is_idempotent stOneTex
      (by decide)).2.1 0 (by decide),
   (destroyGLTextures_deletes_gpu_and_is_idempotent stOneTex
      (by decide)).2.2⟩

/-!
## C6: successful loads and subsequent lookup
-/

/-- Claim C6, counterexample part: loading a second texture under an
already-registered tag succeeds and grows the registry, but the
first-match lookups then do **not** return the newly appended record: the
new record sits in slot 1 with id 2, while `ResolveSlot`/`ResolveId`
return the older record's slot 0 / id 1. -/
theorem createGLTexture_duplicate_tag_counterexample :
    (createGLTexture stOneTex (some imgRGBA) "floor").1 = true ∧
    (createGLTexture stOneTex (some imgRGBA) "floor").2.loadedTextures
      = 2 ∧
    ((createGLTexture stOneTex (some imgRGBA) "floor").2.textureIDs.getD 1
        defaultTextureInfo) = { tag := "floor", ID := 2 } ∧
    findTextureSlot (createGLTexture stOneTex (some imgRGBA) "floor").2
      "floor" ≠ 1 ∧
    findTextureID (createGLTexture stOneTex (some imgRGBA) "floor").2
      "floor" ≠ 2 := by
  decide

theorem lookup_after_append (l : List TEXTURE_INFO) (c : Nat)
    (tag : String) (id : Int) (hc : c < l.length)
    (hfresh : ∀ i, i < c → (l.getD i defaultTextureInfo).tag ≠ tag) :
    findTextureIDLoop tag ((l.set c ⟨tag, id⟩).take (c + 1)) = id ∧
    findTextureSlotLoop tag 0 ((l.set c ⟨tag, id⟩).take (c + 1)) =
      (c : Int) := by
  have hlen : c < ((l.set c ⟨tag, id⟩).take (c + 1)).length := by
    simp only [List.length_take, List.length_set]
    omega
  have hmatch :
      (((l.set c ⟨tag, id⟩).take (c + 1)).getD c defaultTextureInfo).tag
        = tag := by
    rw [getD_take (Nat.lt_succ_self c), getD_set_self _ _ hc]
  have hbefore : ∀ i, i < c →
      (((l.set c ⟨tag, id⟩).take (c + 1)).getD i defaultTextureInfo).tag
        ≠ tag := by
    intro i hi
    rw [getD_take (Nat.lt_succ_of_lt hi), getD_set_ne _ _ (Nat.ne_of_gt hi)]
    exact hfresh i hi
  constructor
  · rw [findTextureIDLoop_first_match hlen hmatch hbefore,
      getD_take (Nat.lt_succ_self c), getD_set_self _ _ hc]
  · rw [findTextureSlotLoop_first_match 0 hlen hmatch hbefore]
    simp

/-- Claim C6, amended: for every registry with spare capacity
(`m_loadedTextures < 16`, array of 16 slots) and a tag not already
registered, a successful 3- or 4-channel load returns true, increments
the registry size by exactly one, and a subsequent
`FindTextureID`/`FindTextureSlot` on that tag returns the non-sentinel
GPU id (the freshly generated name) and slot index (the previous count)
of the newly appended record.  (For an already-registered tag the
first-match scan returns the older record instead — see the
counterexample — and on a full registry the append itself is undefined
behaviour, see C2.) -/
theorem createGLTexture_success_fresh_tag (st : SceneState) (image : Image)
    (tag : String) (hlen : st.textureIDs.length = 16)
    (hcap : st.loadedTextures < 16)
    (hfresh : ∀ i, i < st.loadedTextures →
      (st.textureIDs.getD i defaultTextureInfo).tag ≠ tag)
    (hch : image.channels = 3 ∨ image.channels = 4)
    (hgpu : 1 ≤ st.gpu.nextTextureId) :
    (createGLTexture st (some image) tag).1 = true ∧
    (createGLTexture st (some image) tag).2.loadedTextures =
      st.loadedTextures + 1 ∧
    findTextureID (createGLTexture st (some image) tag).2 tag =
      st.gpu.nextTextureId ∧
    st.gpu.nextTextureId ≠ -1 ∧
    findTextureSlot (createGLTexture st (some image) tag).2 tag =
      (st.loadedTextures : Int) ∧
    (st.loadedTextures : Int) ≠ -1 := by
  have hc : st.loadedTextures < st.textureIDs.length := by omega
  have happ := lookup_after_append st.textureIDs st.loadedTextures tag
    st.gpu.nextTextureId hc hfresh
  rw [createGLTexture]
  simp only [glGenTexture, if_pos hch]
  refine ⟨by trivial, by trivial, ?_, by omega, ?_, by omega⟩
  · exact happ.1
  · exact happ.2

/-- Witness for the amended C6: loading `desk` (4-channel) into the
one-texture registry succeeds, grows the count to 2, and resolves to
id 2 / slot 1. -/
theorem createGLTexture_success_fresh_tag_witness :
    (createGLTexture stOneTex (some imgRGBA) "desk").1 = true ∧
    (createGLTexture stOneTex (some imgRGBA) "desk").2.loadedTextures =
      stOneTex.loadedTextures + 1 ∧
    findTextureID (createGLTexture stOneTex (some imgRGBA) "desk").2
      "desk" = stOneTex.gpu.nextTextureId ∧
    stOneTex.gpu.nextTextureId ≠ -1 ∧
    findTextureSlot (createGLTexture stOneTex (some imgRGBA) "desk").2
      "desk" = (stOneTex.loadedTextures : Int) ∧
    (stOneTex.loadedTextures : Int) ≠ -1 :=
  createGLTexture_success_fresh_tag stOneTex imgRGBA "desk" (by decide)
    (by decide) (by decide) (by decide) (by decide)

/-!
## C4 and C9: the transform compositor
-/

theorem glmRotate_unitX (angle : ℝ) :
    glmRotate angle ⟨1, 0, 0⟩ = specRotateX angle := by
  have hl : Real.sqrt ((1 : ℝ) * 1 + 0 * 0 + 0 * 0) = 1 := by norm_num
  ext <;> simp [glmRotate, specRotateX, hl]

theorem glmRotate_unitY (angle : ℝ) :
    glmRotate angle ⟨0, 1, 0⟩ = specRotateY angle := by
  have hl : Real.sqrt ((0 : ℝ) * 0 + 1 * 1 + 0 * 0) = 1 := by norm_num
  ext <;> simp [glmRotate, specRotateY, hl]

theorem glmRotate_unitZ (angle : ℝ) :
    glmRotate angle ⟨0, 0, 1⟩ = specRotateZ angle := by
  have hl : Real.sqrt ((0 : ℝ) * 0 + 0 * 0 + 1 * 1) = 1 := by norm_num
  ext <;> simp [glmRotate, specRotateZ, hl]

theorem radians_zero : radians 0 = 0 := by
  simp [radians]

theorem specRotateX_zero : specRotateX 0 = Mat4.identity := by
  ext <;> simp [specRotateX, Mat4.identity]

theorem specRotateY_zero : specRotateY 0 = Mat4.identity := by
  ext <;> simp [specRotateY, Mat4.identity]

theorem specRotateZ_zero : specRotateZ 0 = Mat4.identity := by
  ext <;> simp [specRotateZ, Mat4.identity]

theorem glmScale_one : glmScale ⟨1, 1, 1⟩ = Mat4.identity := by
  ext <;> simp [glmScale, Mat4.identity]

theorem glmTranslate_zero : glmTranslate ⟨0, 0, 0⟩ = Mat4.identity := by
  ext <;> simp [glmTranslate, Mat4.identity]

theorem Mat4.id_mul (A : Mat4) : Mat4.identity * A = A := by
  ext <;> simp [Mat4.mul_def, Mat4.mul, Mat4.identity]

/-- Claim C4: the matrix `SetTransformations` composes and forwards as the
`model` uniform is exactly
`Translate · RotateZ · RotateY · RotateX · Scale`, with each rotation
matrix the canonical rotation about the X, Y or Z axis by the angle
converted from degrees to radians. -/
theorem setTransformations_composes_TRS (st : SceneState)
    (sm : ShaderState) (scaleXYZ : Vec3)
    (XrotationDegrees YrotationDegrees ZrotationDegrees : ℝ)
    (positionXYZ : Vec3) (hs : st.pShaderManager = some sm) :
    (setTransformations st scaleXYZ XrotationDegrees YrotationDegrees
        ZrotationDegrees positionXYZ).pShaderManager =
      some (sm.setMat4Value g_ModelName
        (glmTranslate positionXYZ *
          specRotateZ (radians ZrotationDegrees) *
          specRotateY (radians YrotationDegrees) *
          specRotateX (radians XrotationDegrees) *
          glmScale scaleXYZ)) := by
  simp only [setTransformations, hs]
  rw [glmRotate_unitX, glmRotate_unitY, glmRotate_unitZ]

/-- Witness for C4 at the spec's probe transform
(scale (2,1,1), rotation (0,90,0), translation (5,0,0)). -/
theorem setTransformations_composes_TRS_witness :
    (setTransformations (sceneManagerInit (some ⟨[]⟩) gpu0) ⟨2, 1, 1⟩
        0 90 0 ⟨5, 0, 0⟩).pShaderManager =
      some ((⟨[]⟩ : ShaderState).setMat4Value g_ModelName
        (glmTranslate ⟨5, 0, 0⟩ * specRotateZ (radians 0) *
          specRotateY (radians 90) * specRotateX (radians 0) *
          glmScale ⟨2, 1, 1⟩)) :=
  setTransformations_composes_TRS (sceneManagerInit (some ⟨[]⟩) gpu0)
    ⟨[]⟩ ⟨2, 1, 1⟩ 0 90 0 ⟨5, 0, 0⟩ rfl

/-- Claim C9: `SetTransformations` at scale (1,1,1), rotation angles
(0,0,0) degrees and translation (0,0,0) forwards exactly the 4x4 identity
matrix as the `model` uniform. -/
theorem setTransformations_neutral_identity (st : SceneState)
    (sm : ShaderState) (hs : st.pShaderManager = some sm) :
    (setTransformations st ⟨1, 1, 1⟩ 0 0 0 ⟨0, 0, 0⟩).pShaderManager =
      some (sm.setMat4Value g_ModelName Mat4.identity) := by
  simp only [setTransformations, hs]
  rw [radians_zero, glmRotate_unitX, glmRotate_unitY, glmRotate_unitZ,
    specRotateX_zero, specRotateY_zero, specRotateZ_zero, glmScale_one,
    glmTranslate_zero, Mat4.id_mul, Mat4.id_mul, Mat4.id_mul, Mat4.id_mul]

/-- Witness for C9 on a fresh manager with an attached shader program. -/
theorem setTransformations_neutral_identity_witness :
    (setTransformations (sceneManagerInit (some ⟨[]⟩) gpu0) ⟨1, 1, 1⟩
        0 0 0 ⟨0, 0, 0⟩).pShaderManager =
      some ((⟨[]⟩ : ShaderState).setMat4Value g_ModelName Mat4.identity) :=
  setTransformations_neutral_identity (sceneManagerInit (some ⟨[]⟩) gpu0)
    ⟨[]⟩ rfl
